import Mathlib

/-!
Verification development for the slot-normalization and indicator-resolution
core of the Worldbankdata repository (src/parser.py and src/resolver.py).

The Python code is shallowly embedded: strings are Lean strings with all
operations implemented structurally on the underlying character lists so that
closed terms reduce inside the kernel; Python floats are modelled as exact
rationals; the regular-expression substitutions of build_query_terms are
modelled by a small backtracking matcher specialised to the constructs that
occur in the source patterns.  Python dict-based records become structures,
and the single ValueError raised by the resolver becomes an Except value.
-/

/-! ### String primitives

Python string operations used by the source, implemented by structural
recursion over character lists.  Character classes follow the ASCII reading
of the Python semantics, which is the range the catalog and question data
live in.
-/

/-- Python whitespace for str.strip and the regex class backslash-s
(ASCII range). -/
def isPyWs (c : Char) : Bool :=
  c == ' ' || c == '\t' || c == '\n' || c == '\r' || c == '\x0b' || c == '\x0c'

/-- Word character for the regex word boundary, ASCII reading. -/
def isWordChar (c : Char) : Bool :=
  c.isAlphanum || c == '_'

/-- Decides whether the first list is a prefix of the second. -/
def isPre : List Char → List Char → Bool
  | [], _ => true
  | _ :: _, [] => false
  | a :: as, b :: bs => a == b && isPre as bs

/-- Case-insensitive prefix test: the pattern is stored lower-case and each
subject character is lowered before comparison. -/
def isPreCI : List Char → List Char → Bool
  | [], _ => true
  | _ :: _, [] => false
  | p :: ps, c :: cs => p == c.toLower && isPreCI ps cs

/-- Substring occurrence test, Python in-operator on strings. -/
def hasSub (pat : List Char) : List Char → Bool
  | [] => pat.isEmpty
  | c :: s => isPre pat (c :: s) || hasSub pat s

/-- Suffix test, Python str.endswith. -/
def endsW (pat s : List Char) : Bool :=
  isPre pat.reverse s.reverse

/-- Length of the longest prefix of characters from a class. -/
def countLead (p : Char → Bool) : List Char → Nat
  | [] => 0
  | c :: s => if p c then countLead p s + 1 else 0

/-- Python str.strip on a character list. -/
def stripL (s : List Char) : List Char :=
  ((s.dropWhile isPyWs).reverse.dropWhile isPyWs).reverse

/-- Python in-operator: pat occurs as a substring of s. -/
def strContains (s pat : String) : Bool := hasSub pat.data s.data

/-- Python str.endswith. -/
def strEndsWith (s pat : String) : Bool := endsW pat.data s.data

/-- Python str.startswith. -/
def strStarts (s pat : String) : Bool := isPre pat.data s.data

/-- Python str.lower, ASCII reading. -/
def strLower (s : String) : String := ⟨s.data.map Char.toLower⟩

/-- Python str.strip. -/
def strTrim (s : String) : String := ⟨stripL s.data⟩

/-- Python str.join with a single-space separator over a token list. -/
def joinSpace : List String → String
  | [] => ""
  | [b] => b
  | b :: bs => b ++ " " ++ joinSpace bs

/-- Python str.isdigit restricted to ASCII digits: nonempty and all digits. -/
def isDigits (s : String) : Bool :=
  !s.data.isEmpty && s.data.all Char.isDigit

/-- Python int applied to a digit string. -/
def digitsToNat (s : String) : Nat :=
  s.data.foldl (fun n c => 10 * n + (c.toNat - 48)) 0

/-! ### Regex engine

A small backtracking matcher covering exactly the constructs of the five
re.sub patterns in build_query_terms: case-insensitive literals, single
character classes, sequencing, alternation, an optional group, greedy
plus and star over a character class, and the non-greedy dot-star.  A match
attempt returns the list of possible remainders of the input in the
backtracking priority order of the Python re module, so the head of the
list is the remainder of the leftmost-first match.  The word-boundary
anchor of the source patterns always sits in front of a letter, so it is
handled by the substitution scanner as a check on the preceding character.
-/

inductive RE where
  | eps : RE
  | lit : List Char → RE
  | cls : (Char → Bool) → RE
  | seq : RE → RE → RE
  | alt : RE → RE → RE
  | opt : RE → RE
  | plus : (Char → Bool) → RE
  | star : (Char → Bool) → RE
  | lazyStar : (Char → Bool) → RE

/-- All remainders after matching the expression at the front of the input,
highest backtracking priority first. -/
def reMatch : RE → List Char → List (List Char)
  | .eps, s => [s]
  | .lit t, s => if isPreCI t s then [s.drop t.length] else []
  | .cls _, [] => []
  | .cls p, c :: s => if p c then [s] else []
  | .seq a b, s => (reMatch a s).flatMap (fun r => reMatch b r)
  | .alt a b, s => reMatch a s ++ reMatch b s
  | .opt a, s => reMatch a s ++ [s]
  | .plus p, s =>
      let n := countLead p s
      (List.range n).map (fun i => s.drop (n - i))
  | .star p, s =>
      let n := countLead p s
      (List.range (n + 1)).map (fun i => s.drop (n - i))
  | .lazyStar p, s =>
      let n := countLead p s
      (List.range (n + 1)).map (fun i => s.drop i)

/-- The word boundary in front of a pattern starting with a letter holds
exactly when the previous character is absent or not a word character. -/
def boundaryBefore : Option Char → Bool
  | none => true
  | some p => !(isWordChar p)

/-- One pass of re.sub: scan left to right, replace the leftmost match,
continue after its end.  The fuel argument is the input length, enough
because every step consumes at least one character. -/
def subLoop (anchor : Bool) (re : RE) (rep : List Char) :
    Nat → Option Char → List Char → List Char
  | 0, _, s => s
  | _ + 1, _, [] => []
  | fuel + 1, prev, c :: s =>
    let m : Option (List Char) :=
      if anchor && !(boundaryBefore prev) then none
      else (reMatch re (c :: s)).head?
    match m with
    | some rem =>
      let k := (c :: s).length - rem.length
      if k == 0 then c :: subLoop anchor re rep fuel (some c) s
      else rep ++ subLoop anchor re rep fuel (((c :: s).take k).getLast?) rem
    | none => c :: subLoop anchor re rep fuel (some c) s

/-- Python re.sub with an empty or fixed replacement, with the optional
word-boundary anchor described at boundaryBefore. -/
def reSub (anchor : Bool) (re : RE) (rep : List Char) (s : List Char) :
    List Char :=
  subLoop anchor re rep (s.length + 1) none s

/-- Character class of the source age patterns: digits, dash, plus sign,
whitespace and the letters of the words and plus above (case-insensitive). -/
def ageCls (c : Char) : Bool :=
  c.isDigit || c == '-' || c == '+' || isPyWs c ||
    ['a', 'n', 'd', 'b', 'o', 'v', 'e'].contains c.toLower

/-- Any character except a newline, the regex dot. -/
def notNl (c : Char) : Bool := c != '\n'

/-- Optional fe followed by male, shared head of the first two patterns. -/
def reFeMale : RE := .seq (.opt (.lit ['f', 'e'])) (.lit ['m', 'a', 'l', 'e'])

/-- The group matching ages or age, alternation as written in the source. -/
def reAgeWord : RE :=
  .alt (.seq (.lit ['a', 'g', 'e']) (.opt (.lit ['s']))) (.lit ['a', 'g', 'e'])

/-- Source pattern 1: word boundary, optional fe, male, spaces, age word,
spaces, one or more age-class characters. -/
def reP1 : RE :=
  .seq reFeMale (.seq (.plus isPyWs) (.seq reAgeWord (.seq (.plus isPyWs) (.plus ageCls))))

/-- Source pattern 2: word boundary, optional fe, male. -/
def reP2 : RE := reFeMale

/-- Source pattern 3: word boundary, age word, spaces, age-class run. -/
def reP3 : RE :=
  .seq (.lit ['a', 'g', 'e']) (.seq (.opt (.lit ['s']))
    (.seq (.plus isPyWs) (.plus ageCls)))

/-- Source pattern 4: optional spaces, parenthesised age phrase. -/
def reP4 : RE :=
  .seq (.star isPyWs) (.seq (.lit ['('])
    (.seq (.lit ['a', 'g', 'e']) (.seq (.opt (.lit ['s']))
      (.seq (.plus isPyWs) (.seq (.plus ageCls) (.lit [')']))))))

/-- Source pattern 5: optional spaces, parenthesised text containing male or
female, non-greedy on both sides. -/
def reP5 : RE :=
  .seq (.star isPyWs) (.seq (.lit ['('])
    (.seq (.lazyStar notNl) (.seq (.alt (.lit ['m', 'a', 'l', 'e']) (.lit ['f', 'e', 'm', 'a', 'l', 'e']))
      (.seq (.lazyStar notNl) (.lit [')'])))))

/-- Source pattern 6: one or more whitespace characters, replaced by one
space to collapse runs. -/
def reP6 : RE := .plus isPyWs

/-- The underscore and line-break replacements applied to the concept before
the regex substitutions, each a single-character replacement. -/
def mapSp (c : Char) : Char :=
  if c == '_' || c == '\n' || c == '\r' then ' ' else c

/-- Concept cleaning of build_query_terms, source lines 57 to 69: replace
underscores and line breaks by spaces, strip demographic fragments with the
five patterns, collapse whitespace and strip. -/
def cleanConcept (concept0 : String) : String :=
  let s0 := concept0.data.map mapSp
  let s1 := reSub true reP1 [] s0
  let s2 := reSub true reP2 [] s1
  let s3 := reSub true reP3 [] s2
  let s4 := reSub false reP4 [] s3
  let s5 := reSub false reP5 [] s4
  let s6 := reSub false reP6 [' '] s5
  ⟨stripL s6⟩


/-! ### Candidate classification predicates, resolver.py lines 4 to 49 -/

/-- resolver.is_percent. -/
def is_percent (ind_id name unit : String) : Bool :=
  strEndsWith ind_id ".ZS" || strContains name "%)" || strContains unit "%" ||
    strContains (strLower unit) "percent"

/-- resolver.is_growth. -/
def is_growth (ind_id name : String) : Bool :=
  strEndsWith ind_id ".ZG" || strContains (strLower name) "growth (annual %)"

/-- resolver.is_count. -/
def is_count (ind_id unit : String) : Bool :=
  if strEndsWith ind_id ".ZS" || strEndsWith ind_id ".ZG" then false
  else strEndsWith ind_id ".IN" || strContains (strLower unit) "number" ||
    strTrim unit == ""

/-- resolver.is_ppp. -/
def is_ppp (ind_id name : String) : Bool :=
  strContains ind_id ".PP" || strContains (strLower name) "ppp"

/-- resolver.is_constant. -/
def is_constant (ind_id name : String) : Bool :=
  strEndsWith ind_id ".KD" || strContains (strLower name) "constant"

/-- resolver.is_current_usd. -/
def is_current_usd (ind_id name unit : String) : Bool :=
  strEndsWith ind_id ".CD" || strContains (strLower name) "current us$" ||
    strContains (strLower unit) "current"

/-- resolver.has_sex, the sex-marker test on indicator codes. -/
def has_sex (ind_id sex : String) : Bool :=
  if sex == "female" then
    strContains ind_id ".FE." || strEndsWith ind_id ".FE.IN" ||
      strEndsWith ind_id ".FE.ZS" || strEndsWith ind_id ".FE"
  else if sex == "male" then
    strContains ind_id ".MA." || strEndsWith ind_id ".MA.IN" ||
      strEndsWith ind_id ".MA.ZS" || strEndsWith ind_id ".MA"
  else if sex == "total" then
    !(strContains ind_id ".FE." || strContains ind_id ".MA.")
  else true

/-- resolver.has_age: the age-band code table lookup; unknown bands and the
band none always pass. -/
def has_age (ind_id age_band : String) : Bool :=
  if age_band == "none" then true
  else if age_band == "65up" then strContains ind_id "65UP"
  else if age_band == "1524" then strContains ind_id "1524"
  else if age_band == "0t04" then strContains ind_id "0T04"
  else if age_band == "1564" then strContains ind_id "1564"
  else true

/-! ### Slots and query building -/

/-- The canonical slots dictionary produced by the parser, resolver input.
All keys of the source dict are present; year fields are numbers or absent. -/
structure Slots where
  country_text : String
  time_mode : String
  year : Option Nat
  start_year : Option Nat
  end_year : Option Nat
  latest_n : Option Nat
  concept : String
  unit_qualifiers : List String
  sex : String
  age_band : String
  notes : String
deriving DecidableEq

/-- First-occurrence deduplication: the model of iterating the Python set
built from the qualifier list.  Membership tests on the set coincide with
membership in the list; the iteration order of a Python set is unspecified,
and this model fixes the first-occurrence order. -/
def dedupFirst (seen : List String) : List String → List String
  | [] => []
  | x :: xs =>
    if seen.contains x then dedupFirst seen xs
    else x :: dedupFirst (x :: seen) xs

/-- Token emitted for one unit qualifier, build_query_terms lines 77 to 89;
qualifiers without a branch emit nothing. -/
def qualifierToken (q : String) : List String :=
  if q == "percent_share" then ["percent"]
  else if q == "growth_rate" then ["growth"]
  else if q == "per_capita" then ["per capita"]
  else if q == "ppp" then ["ppp"]
  else if q == "current_usd" then ["current"]
  else if q == "constant_usd" then ["constant"]
  else []

/-- Age string table of build_query_terms line 97, defaulting to the band
itself. -/
def ageToken (a : String) : String :=
  if a == "65up" then "65+"
  else if a == "1524" then "15-24"
  else if a == "0t04" then "0-4"
  else if a == "1564" then "15-64"
  else a

/-- The token list assembled by build_query_terms: cleaned concept when
nonempty and not the literal unknown, then qualifier tokens, then the sex
token when not total, then the age string when a band is set. -/
def queryBits (slots : Slots) : List String :=
  (if cleanConcept slots.concept != "" && cleanConcept slots.concept != "unknown"
    then [cleanConcept slots.concept] else [])
  ++ (dedupFirst [] slots.unit_qualifiers).flatMap qualifierToken
  ++ (if slots.sex != "" && slots.sex != "total" then [slots.sex] else [])
  ++ (if slots.age_band != "" && slots.age_band != "none"
      then [ageToken slots.age_band] else [])

/-- The joined and stripped query string, build_query_terms line 101. -/
def joinedQuery (slots : Slots) : String :=
  strTrim (joinSpace (queryBits slots))

/-- resolver.build_query_terms: the joined token string, falling back to the
cleaned concept when the join is empty (source line 102, query or concept,
where concept holds the cleaned value at that point). -/
def build_query_terms (slots : Slots) : String :=
  if joinedQuery slots == "" then cleanConcept slots.concept
  else joinedQuery slots

/-! ### Slot normalization, parser.py lines 31 to 133

The call into the language model returns five free-text fields; everything
after that return is deterministic string processing, which is what is
embedded here.  The five fields form the raw extraction record.
-/

/-- The five noisy text fields returned by the external extraction model. -/
structure RawExtraction where
  country : String
  concept : String
  year : String
  unit : String
  demographics : String
deriving DecidableEq

/-- Strip a field and turn the literal none (case-insensitive) into absence,
parser lines 37 to 38. -/
def noneFilter (s : String) : Option String :=
  let t := strTrim s
  if strLower t == "none" then none else some t

/-- Normalized concept: lower-cased, spaces to underscores, with the cpi
override of parser lines 48 to 49. -/
def conceptNorm (res : RawExtraction) (q : String) : String :=
  let c := ⟨(strLower (strTrim res.concept)).data.map
    (fun ch => if ch == ' ' then '_' else ch)⟩
  if strContains q "cpi" || strContains q "consumer price index" then
    "inflation_cpi"
  else c

/-- Lower-cased unit text with the none sentinel removed, parser line 62. -/
def unitNorm (res : RawExtraction) : String :=
  strLower ((noneFilter res.unit).getD "")

/-- Lower-cased demographics text with the none sentinel removed, parser
line 86. -/
def demoNorm (res : RawExtraction) : String :=
  strLower ((noneFilter res.demographics).getD "")

/-- Growth detection on the lower-cased question, parser line 64. -/
def hasGrowth (q : String) : Bool :=
  strContains q "growth rate" || strContains q "growth" || strContains q "yoy"

/-- Unit qualifiers accumulated by parser lines 61 to 84, before the
demographic branches: per-capita and ppp hints, the currency-basis pair
gated on absence of growth, then exactly one of growth-rate or the
percent-share branches. -/
def uqBase (unit q : String) : List String :=
  (if strContains unit "per capita" || strContains q "per capita"
    then ["per_capita"] else [])
  ++ (if strContains unit "ppp" || strContains q "ppp" then ["ppp"] else [])
  ++ (if !hasGrowth q then
        (if strContains unit "constant" || strContains unit "real"
          then ["constant_usd"] else [])
        ++ (if strContains unit "current" || strContains unit "nominal" ||
              strContains unit "usd" then ["current_usd"] else [])
      else [])
  ++ (if hasGrowth q then ["growth_rate"]
      else if strContains unit "%" || strContains unit "percent" then
        ["percent_share"]
      else if strContains q " rate" then
        (if !(strContains q "unemployment") && !(strContains q "inflation") &&
            !(strContains q "cpi") then ["percent_share"] else [])
      else [])

/-- Demographic concept gate of parser line 90. -/
def isDemoConcept (concept : String) : Bool :=
  strContains concept "population" || strContains concept "unemployment" ||
    strContains concept "life_expectancy"

/-- The growth, percent, share or ratio wording test of parser lines 96
and 108. -/
def ratioWordy (q : String) : Bool :=
  strContains q "growth" || strContains q "%" || strContains q "percent" ||
    strContains q "share" || strContains q "ratio"

/-- Idempotent append of the count-number qualifier, parser lines 97 to 98
and 109 to 110. -/
def addCountNum (l : List String) : List String :=
  if l.contains "count_number" then l else l ++ ["count_number"]

/-- The total-population phrasing test of parser line 94. -/
def totalPopPhrase (q : String) : Bool :=
  strContains q "total population" || strContains q "total pop" ||
    (strContains q "population" && strContains q "total")

/-- Sex resolution chain of parser lines 87 to 106, returning the sex and
the qualifier list, which only the total-population branch may extend. -/
def sexResolve (concept q demographics : String) (uq : List String) :
    String × List String :=
  if !isDemoConcept concept then ("total", uq)
  else if totalPopPhrase q then
    ("total", if !ratioWordy q then addCountNum uq else uq)
  else if strContains q "female" || strContains q "females" ||
      strContains q "women" || strContains q "woman" ||
      strContains q "girls" then ("female", uq)
  else if (strContains q "male" || strContains q "males" ||
      strContains q "men" || strContains q "man" || strContains q "boys") &&
      !(strContains q "female" || strContains q "females") then ("male", uq)
  else if strContains demographics "female" ||
      strContains demographics "women" then ("female", uq)
  else if (strContains demographics "male" ||
      strContains demographics "men") &&
      !(strContains demographics "female") then ("male", uq)
  else ("total", uq)

/-- Age band resolution of parser lines 112 to 116: the 65-up check, then
the 15-24 check which overwrites when both match. -/
def ageResolve (demographics : String) : String :=
  let a1 := if strContains demographics "65" &&
      (strContains demographics "+" || strContains demographics "plus" ||
        strContains demographics "over" || strContains demographics "above")
    then "65up" else "none"
  if strContains demographics "15-24" ||
      strContains demographics "15â€“24" then "1524" else a1

/-- Time mode of parser lines 52 to 59. -/
def timeMode (year_str q : String) : String :=
  if isDigits year_str then "single"
  else if strContains q "latest" || strContains q "most recent" then "latest_n"
  else "single"

/-- Parsed single year of parser lines 55 to 56. -/
def yearParsed (year_str : String) : Option Nat :=
  if isDigits year_str then some (digitsToNat year_str) else none

/-- Latest-n count of parser lines 57 to 59. -/
def latestN (year_str q : String) : Option Nat :=
  if isDigits year_str then none
  else if strContains q "latest" || strContains q "most recent" then some 1
  else none

/-- Final qualifier list: the sex-resolution chain followed by the
catch-all count-number append of parser lines 108 to 110. -/
def uqFinal (concept q demographics : String) (base : List String) :
    List String :=
  if strContains concept "population" &&
      (sexResolve concept q demographics base).1 == "total" && !ratioWordy q
  then addCountNum (sexResolve concept q demographics base).2
  else (sexResolve concept q demographics base).2

/-- QuestionParser parse-with-dspy, the deterministic normalization applied
to the extraction output and the question, parser lines 33 to 133. -/
def parse_with_dspy (res : RawExtraction) (question : String) : Slots :=
  let q := strLower question
  let concept := conceptNorm res q
  let unit := unitNorm res
  let demographics := demoNorm res
  let p := sexResolve concept q demographics (uqBase unit q)
  let uqF := uqFinal concept q demographics (uqBase unit q)
  { country_text := strTrim res.country
  , time_mode := timeMode (strTrim res.year) q
  , year := yearParsed (strTrim res.year)
  , start_year := none
  , end_year := none
  , latest_n := latestN (strTrim res.year) q
  , concept := concept
  , unit_qualifiers := uqF
  , sex := p.1
  , age_band := ageResolve demographics
  , notes := "DSPy+Ollama" }

/-! ### Resolver data model and pipeline, resolver.py lines 105 to 231 -/

/-- One catalog row as seen through the read-only id-to-row mapping the
resolver is constructed with; the field values are already strings. -/
structure Row where
  id : String
  name : String
  unit : String
  topics : String
  sourceNote : String
  source : String
deriving DecidableEq

/-- A transient candidate dict built by resolve: catalog metadata plus the
semantic similarity, with the score key absent until scoring attaches it. -/
structure Cand where
  id : String
  name : String
  unit : String
  topics : String
  sourceNote : String
  source : String
  semantic : ℚ
  score : Option ℚ
deriving DecidableEq

/-- The successful resolver output: the tuple of id, name, unit, confidence
margin and notes returned at resolver line 146. -/
structure ResolutionResult where
  id : String
  name : String
  unit : String
  margin : ℚ
  notes : String
deriving DecidableEq

/-- Candidate construction of resolve lines 112 to 126: look each search
result up in the catalog mapping, silently dropping absent ids. -/
def buildCandidates (cat : String → Option Row) (sr : List (String × ℚ)) :
    List Cand :=
  sr.filterMap fun p =>
    (cat p.1).map fun r =>
      { id := r.id, name := r.name, unit := r.unit, topics := r.topics
      , sourceNote := r.sourceNote, source := r.source
      , semantic := p.2, score := none }

/-- The per-candidate keep decision of apply-constraints lines 154 to 172,
with the continue statements rendered as an if chain. -/
def keepCand (slots : Slots) (c : Cand) : Bool :=
  if slots.unit_qualifiers.contains "ppp" && !(is_ppp c.id c.name) then false
  else if slots.unit_qualifiers.contains "growth_rate" &&
      !(is_growth c.id c.name) then false
  else if slots.unit_qualifiers.contains "percent_share" &&
      !(is_percent c.id c.name c.unit) &&
      !(strContains (strLower c.name) "rate") then false
  else if !(has_sex c.id slots.sex) then false
  else if !(has_age c.id slots.age_band) then false
  else true

/-- IndicatorResolver apply-constraints: the order-preserving filter. -/
def applyConstraints (slots : Slots) (candidates : List Cand) : List Cand :=
  candidates.filter (keepCand slots)

/-- Unit-qualifier match count of score-candidates lines 183 to 198, one
point per requested qualifier whose predicate holds. -/
def unit_match (slots : Slots) (c : Cand) : ℚ :=
  (bif slots.unit_qualifiers.contains "ppp" && is_ppp c.id c.name
    then 1 else 0)
  + (bif slots.unit_qualifiers.contains "growth_rate" && is_growth c.id c.name
    then 1 else 0)
  + (bif slots.unit_qualifiers.contains "percent_share" &&
      is_percent c.id c.name c.unit then 1 else 0)
  + (bif slots.unit_qualifiers.contains "count_number" && is_count c.id c.unit
    then 1 else 0)
  + (bif slots.unit_qualifiers.contains "constant_usd" &&
      is_constant c.id c.name then 1 else 0)
  + (bif slots.unit_qualifiers.contains "current_usd" &&
      is_current_usd c.id c.name c.unit then 1 else 0)
  + (bif slots.unit_qualifiers.contains "per_capita" &&
      (strContains c.id ".PC" || strContains (strLower c.name) "per capita")
    then 1 else 0)

/-- Demographics match count of score-candidates lines 200 to 205. -/
def demo_match (slots : Slots) (c : Cand) : ℚ :=
  (bif has_sex c.id slots.sex then 1 else 0)
  + (bif has_age c.id slots.age_band then 1 else 0)

/-- Concept-specific boost table of score-candidates lines 207 to 219,
computed on the lower-cased concept. -/
def prior (slots : Slots) (c : Cand) : ℚ :=
  (bif (strLower slots.concept == "inflation" ||
      strLower slots.concept == "inflation_cpi") &&
      (strContains (strLower c.name) "consumer prices (annual %)" ||
        c.id == "FP.CPI.TOTL.ZG") then 1 else 0)
  + (bif strLower slots.concept == "gdp" && strStarts c.id "NY.GDP.MKTP"
    then 1 else 0)
  + (bif strLower slots.concept == "population" then
      (bif c.id == "SP.POP.TOTL" && slots.sex == "total" then 2
       else bif strStarts c.id "SP.POP" then (0.8 : ℚ) else 0)
     else 0)

/-- Score attachment for one candidate, the in-place assignment of
score-candidates lines 222 to 228 including the written-out final zero
term. -/
def scoreOne (slots : Slots) (c : Cand) : Cand :=
  { c with
    score := some (0.45 * c.semantic + 0.25 * unit_match slots c +
      0.15 * demo_match slots c + 0.10 * prior slots c + 0.05 * 0) }

/-- The sort key used at score-candidates line 230, reading the attached
score; every candidate reaching the sort has one. -/
def scoreKey (c : Cand) : ℚ := c.score.getD 0

/-- Stable descending insertion: the new element goes in front of the first
element whose key is not larger, so earlier elements stay first on ties. -/
def insertDesc {α : Type} (key : α → ℚ) (a : α) : List α → List α
  | [] => [a]
  | b :: bs => if key b ≤ key a then a :: b :: bs else b :: insertDesc key a bs

/-- Stable descending sort by key.  The source sorts with reverse true under
a stable sorting algorithm; a stable sort for a given key order is unique as
a function, so stable insertion sort computes the same list. -/
def sortDesc {α : Type} (key : α → ℚ) : List α → List α
  | [] => []
  | a :: as => insertDesc key a (sortDesc key as)

/-- IndicatorResolver score-candidates: attach a score to every candidate,
then sort descending by score, stably. -/
def scoreCandidates (slots : Slots) (candidates : List Cand) : List Cand :=
  sortDesc scoreKey (candidates.map (scoreOne slots))

/-- Floor of a rational, computed on the normalized fraction. -/
def floorQ (y : ℚ) : ℤ := y.num.fdiv (y.den : ℤ)

/-- Round half to even, the rounding of Python float formatting for values
representable exactly, which the embedded scores are. -/
def roundHE (y : ℚ) : ℤ :=
  let f := floorQ y
  let r := y - (f : ℚ)
  if r < 1 / 2 then f
  else if 1 / 2 < r then f + 1
  else if f % 2 = 0 then f else f + 1

/-- Decimal digits of a natural number, most significant first. -/
def natDigitsAux : Nat → Nat → List Char
  | 0, _ => []
  | fuel + 1, n =>
    if n < 10 then [Char.ofNat (48 + n)]
    else natDigitsAux fuel (n / 10) ++ [Char.ofNat (48 + n % 10)]

/-- Decimal rendering of a natural number. -/
def natDigits (n : Nat) : List Char := natDigitsAux (n + 1) n

/-- Zero-padded three-digit rendering of a number below 1000. -/
def pad3 (n : Nat) : List Char :=
  List.replicate (3 - (natDigits n).length) '0' ++ natDigits n

/-- The three-decimal float formatting used in the notes string of resolve
line 144. -/
def fmt3 (x : ℚ) : String :=
  let m := roundHE (1000 * x)
  ⟨(if m < 0 then ['-'] else []) ++ natDigits (m.natAbs / 1000) ++
    '.' :: pad3 (m.natAbs % 1000)⟩

/-- The ValueError message of resolve line 133, carrying the synthesized
query string. -/
def errMsg (slots : Slots) : String :=
  "No suitable indicator after constraints for query=\x27" ++
    build_query_terms slots ++ "\x27"

/-- Score of the second-ranked candidate, or zero when there is none,
resolve line 140. -/
def secondScore : List Cand → ℚ
  | [] => 0
  | c :: _ => scoreKey c

/-- Selection of the best scored candidate, resolve lines 138 to 146.  The
empty case never runs because scoring preserves the length of the nonempty
filtered list; it carries the same error value as the empty-filter branch. -/
def resolveScored (slots : Slots) (scored : List Cand) :
    Except String ResolutionResult :=
  match scored with
  | [] => .error (errMsg slots)
  | best :: rest =>
    .ok { id := best.id, name := best.name, unit := best.unit
        , margin := max 0 (scoreKey best - secondScore rest)
        , notes := "query=\x27" ++ build_query_terms slots ++
            "\x27, semantic=" ++ fmt3 best.semantic }

/-- IndicatorResolver.resolve: build candidates from the search results and
the catalog mapping, filter, fail when nothing survives, otherwise score,
rank and return the best with its confidence margin and notes. -/
def resolve (cat : String → Option Row) (slots : Slots)
    (search_results : List (String × ℚ)) : Except String ResolutionResult :=
  let filtered := applyConstraints slots (buildCandidates cat search_results)
  if filtered.isEmpty then .error (errMsg slots)
  else resolveScored slots (scoreCandidates slots filtered)

/-- A candidate with the score key removed, for stating that scoring changes
nothing else. -/
def stripScore (c : Cand) : Cand := { c with score := none }

/-- The rejection condition exactly as the specification states it: ppp
requested without the ppp predicate, growth requested without the growth
predicate, percent-share requested with neither the percent predicate nor
rate in the name, a sex mismatch, or an age mismatch. -/
def rejectSpec (slots : Slots) (c : Cand) : Bool :=
  (slots.unit_qualifiers.contains "ppp" && !(is_ppp c.id c.name))
  || (slots.unit_qualifiers.contains "growth_rate" && !(is_growth c.id c.name))
  || (slots.unit_qualifiers.contains "percent_share" &&
      !(is_percent c.id c.name c.unit) &&
      !(strContains (strLower c.name) "rate"))
  || !(has_sex c.id slots.sex)
  || !(has_age c.id slots.age_band)

/-! ### Concrete instances used by the witnesses and counterexamples -/

/-- Catalog row of the total-population indicator. -/
def rowPop : Row :=
  { id := "SP.POP.TOTL", name := "Population, total", unit := ""
  , topics := "", sourceNote := "", source := "" }

/-- A one-row catalog mapping containing only the total-population row. -/
def catPop : String → Option Row :=
  fun i => if i == "SP.POP.TOTL" then some rowPop else none

/-- Slots of a plain population question: no qualifiers, total sex, no age
band. -/
def slotsPop : Slots :=
  { country_text := "India", time_mode := "single", year := some 2022
  , start_year := none, end_year := none, latest_n := none
  , concept := "population", unit_qualifiers := [], sex := "total"
  , age_band := "none", notes := "DSPy+Ollama" }

/-- One retrieval result for the population catalog. -/
def srPop : List (String × ℚ) := [("SP.POP.TOTL", (4 / 5 : ℚ))]

/-- The candidate that resolve builds from the population retrieval
result. -/
def candPop : Cand :=
  { id := "SP.POP.TOTL", name := "Population, total", unit := ""
  , topics := "", sourceNote := "", source := ""
  , semantic := (4 / 5 : ℚ), score := none }

/-- The resolution result of the population example, written as the terms
the resolver produces. -/
def resPop : ResolutionResult :=
  { id := "SP.POP.TOTL", name := "Population, total", unit := ""
  , margin := max 0 (scoreKey (scoreOne slotsPop candPop) - secondScore [])
  , notes := "query=\x27" ++ build_query_terms slotsPop ++
      "\x27, semantic=" ++ fmt3 (scoreOne slotsPop candPop).semantic }

/-- Catalog row of the current-dollar GDP indicator. -/
def rowGdp : Row :=
  { id := "NY.GDP.MKTP.CD", name := "GDP (current US$)", unit := ""
  , topics := "", sourceNote := "", source := "" }

/-- A one-row catalog mapping containing only the GDP row. -/
def catGdp : String → Option Row :=
  fun i => if i == "NY.GDP.MKTP.CD" then some rowGdp else none

/-- Slots requesting ppp for a gdp concept; the GDP row fails the ppp
predicate, so constraint filtering leaves nothing. -/
def slotsPpp : Slots :=
  { country_text := "India", time_mode := "single", year := some 2022
  , start_year := none, end_year := none, latest_n := none
  , concept := "gdp", unit_qualifiers := ["ppp"], sex := "total"
  , age_band := "none", notes := "DSPy+Ollama" }

/-- One retrieval result for the GDP catalog. -/
def srGdp : List (String × ℚ) := [("NY.GDP.MKTP.CD", (7 / 10 : ℚ))]

/-- Slots whose concept consists only of a gender word, so concept cleaning
erases it and the query token list is empty. -/
def slotsFem : Slots :=
  { country_text := "", time_mode := "single", year := none
  , start_year := none, end_year := none, latest_n := none
  , concept := "female", unit_qualifiers := [], sex := "total"
  , age_band := "none", notes := "DSPy+Ollama" }

/-- Extraction output of a population growth question. -/
def rawGrowth : RawExtraction :=
  { country := "India", concept := "Population", year := "2022"
  , unit := "none", demographics := "none" }

/-- The population growth question. -/
def qGrowth : String := "What is the population growth rate in India in 2022?"

/-- Extraction output of a plain GDP question. -/
def rawGdpQ : RawExtraction :=
  { country := "Saudi Arabia", concept := "GDP", year := "2022"
  , unit := "current USD", demographics := "female" }

/-- The GDP question: not a demographic concept, so the demographics field
must be ignored. -/
def qGdp : String := "What is the GDP of Saudi Arabia in 2022?"


/-! ### Helper lemmas -/

theorem insertDesc_perm {α : Type} (key : α → ℚ) (a : α) (l : List α) :
    (insertDesc key a l).Perm (a :: l) := by
  induction l with
  | nil => simp [insertDesc]
  | cons b bs ih =>
    unfold insertDesc
    split
    · exact List.Perm.refl _
    · exact (ih.cons b).trans (List.Perm.swap a b bs)

theorem sortDesc_perm {α : Type} (key : α → ℚ) (l : List α) :
    (sortDesc key l).Perm l := by
  induction l with
  | nil => exact List.Perm.refl _
  | cons a as ih => exact (insertDesc_perm key a (sortDesc key as)).trans (ih.cons a)

theorem mem_sortDesc {α : Type} {key : α → ℚ} {x : α} {l : List α} :
    x ∈ sortDesc key l ↔ x ∈ l :=
  (sortDesc_perm key l).mem_iff

theorem scoreCandidates_eq_nil_iff (slots : Slots) (cs : List Cand) :
    scoreCandidates slots cs = [] ↔ cs = [] := by
  unfold scoreCandidates
  rw [← List.length_eq_zero, (sortDesc_perm scoreKey _).length_eq,
    List.length_map, List.length_eq_zero]

theorem keepCand_eq_not_reject (slots : Slots) (c : Cand) :
    keepCand slots c = !(rejectSpec slots c) := by
  unfold keepCand rejectSpec
  cases h1 : slots.unit_qualifiers.contains "ppp" && !(is_ppp c.id c.name) <;>
  cases h2 : slots.unit_qualifiers.contains "growth_rate" &&
    !(is_growth c.id c.name) <;>
  cases h3 : slots.unit_qualifiers.contains "percent_share" &&
    !(is_percent c.id c.name c.unit) &&
    !(strContains (strLower c.name) "rate") <;>
  cases h4 : has_sex c.id slots.sex <;>
  cases h5 : has_age c.id slots.age_band <;>
  simp [h1, h2, h3, h4, h5]

theorem mem_addCountNum {x : String} (l : List String)
    (hx : x ≠ "count_number") : x ∈ addCountNum l ↔ x ∈ l := by
  unfold addCountNum
  split
  · exact Iff.rfl
  · simp [hx]

theorem sexResolve_uq (concept q d : String) (uq : List String) :
    (sexResolve concept q d uq).2 = uq ∨
    (sexResolve concept q d uq).2 = addCountNum uq := by
  unfold sexResolve
  split_ifs <;> simp

theorem mem_uqFinal (x concept q d : String) (base : List String)
    (hx : x ≠ "count_number") : x ∈ uqFinal concept q d base ↔ x ∈ base := by
  have hbase : x ∈ (sexResolve concept q d base).2 ↔ x ∈ base := by
    rcases sexResolve_uq concept q d base with h | h
    · rw [h]
    · rw [h]; exact mem_addCountNum base hx
  unfold uqFinal
  split
  · exact (mem_addCountNum _ hx).trans hbase
  · exact hbase

theorem uqBase_growth_mem (unit q : String)
    (h : "growth_rate" ∈ uqBase unit q) : hasGrowth q = true := by
  by_cases hg : hasGrowth q = true
  · exact hg
  · exfalso
    rw [Bool.not_eq_true] at hg
    simp [uqBase, hg] at h
    split_ifs at h <;> simp_all

theorem uqBase_no_currency (unit q : String) (h : hasGrowth q = true) :
    "constant_usd" ∉ uqBase unit q ∧ "current_usd" ∉ uqBase unit q := by
  constructor <;> (intro hm; simp [uqBase, h] at hm)

/-! ### Claim theorems -/

/-- Claim C1, counterexample: a slots value and candidate list on which the
constraint filter leaves a single candidate, yet resolve returns a strictly
positive confidence margin, because the second score defaults to zero and
the lone score is positive.  This refutes the part of the claim asserting a
zero margin whenever fewer than two candidates survive. -/
theorem claim_C1_counterexample :
    (applyConstraints slotsPop (buildCandidates catPop srPop)).length < 2 ∧
    resolve catPop slotsPop srPop = Except.ok resPop ∧ resPop.margin ≠ 0 := by
  refine ⟨by decide, rfl, ?_⟩
  have h : resPop.margin =
      max (0 : ℚ) ((0.45 * (4 / 5 : ℚ) + 0.25 * (0 + 0 + 0 + 0 + 0 + 0 + 0) +
        0.15 * (1 + 1) + 0.10 * (0 + 0 + 2) + 0.05 * 0) - 0) := rfl
  rw [h, max_eq_right (by norm_num)]
  norm_num

/-- Claim C1, amended: for every slots value and candidate list, a successful
resolve returns a margin that is at least zero; when the filtered list has a
single entry the second score is taken to be zero, so the margin equals the
maximum of zero and the score of that lone candidate, which need not be
zero. -/
theorem claim_C1_amended (cat : String → Option Row) (slots : Slots)
    (sr : List (String × ℚ)) (r : ResolutionResult)
    (h : resolve cat slots sr = Except.ok r) :
    0 ≤ r.margin ∧
    ∀ c, applyConstraints slots (buildCandidates cat sr) = [c] →
      r.margin = max 0 (scoreKey (scoreOne slots c)) := by
  unfold resolve at h
  by_cases he : (applyConstraints slots (buildCandidates cat sr)).isEmpty
  · rw [if_pos he] at h
    exact absurd h (by simp)
  · rw [if_neg he] at h
    cases hs : scoreCandidates slots
        (applyConstraints slots (buildCandidates cat sr)) with
    | nil => rw [hs] at h; exact absurd h (by simp [resolveScored])
    | cons best rest =>
      rw [hs] at h
      simp only [resolveScored, Except.ok.injEq] at h
      subst h
      constructor
      · exact le_max_left 0 _
      · intro c hc
        rw [hc] at hs
        have h1 : ([scoreOne slots c] : List Cand) = best :: rest := hs
        injection h1 with hb ht
        subst hb
        subst ht
        show max 0 (scoreKey (scoreOne slots c) - secondScore []) = _
        rw [show secondScore [] = (0 : ℚ) from rfl, sub_zero]

/-- Claim C1, witness: the amended theorem applied to the concrete
population example, a successful resolution with one surviving candidate. -/
theorem claim_C1_witness :
    0 ≤ resPop.margin ∧
    resPop.margin = max 0 (scoreKey (scoreOne slotsPop candPop)) := by
  have h := claim_C1_amended catPop slotsPop srPop resPop rfl
  exact ⟨h.1, h.2 candPop rfl⟩

/-- Claim C2, counterexample: slots whose concept is the word female clean
to the empty concept, the emitted token list joins to the empty string, and
the fallback returns the cleaned concept, the empty string, not the raw
concept female as the claim states. -/
theorem claim_C2_counterexample :
    joinedQuery slotsFem = "" ∧
    build_query_terms slotsFem ≠ slotsFem.concept := ⟨rfl, by decide⟩

/-- Claim C2, amended: when the joined token string is empty,
build_query_terms falls back to the cleaned concept string, the value the
local concept variable holds at the return, not the raw field. -/
theorem claim_C2_amended (slots : Slots) (h : joinedQuery slots = "") :
    build_query_terms slots = cleanConcept slots.concept := by
  unfold build_query_terms
  rw [h]
  simp

/-- Claim C2, witness: the amended theorem at the concrete slots whose
tokens join to the empty string. -/
theorem claim_C2_witness :
    joinedQuery slotsFem = "" ∧
    build_query_terms slotsFem = cleanConcept slotsFem.concept :=
  ⟨rfl, claim_C2_amended slotsFem rfl⟩

/-- Claim C3, counterexample: an indicator id ending in the bare female
suffix satisfies the female request and also the total request, because
the total branch only excludes the dotted infix markers.  This refutes the
part of the claim asserting that a sex-specific id never satisfies a total
request. -/
theorem claim_C3_counterexample :
    has_sex "SP.DYN.LE00.FE" "female" = true ∧
    has_sex "SP.DYN.LE00.FE" "total" = true := by decide

/-- Claim C3, amended: the total request holds exactly when the id contains
neither the dotted female infix marker nor the dotted male infix marker; an
id that is sex-specific only through a trailing suffix form can still
satisfy a total request. -/
theorem claim_C3_amended (ind_id : String) :
    has_sex ind_id "total" =
      (!(strContains ind_id ".FE.") && !(strContains ind_id ".MA.")) := by
  show (!(strContains ind_id ".FE." || strContains ind_id ".MA.")) = _
  simp [Bool.not_or]

set_option maxHeartbeats 1000000 in
/-- Claim C4: resolve fails exactly when the constraint filter leaves zero
candidates, the failure value carries the synthesized query string, and
when candidates survive resolve returns a result, so there is no other
failure path. -/
theorem claim_C4_error_iff (cat : String → Option Row) (slots : Slots)
    (sr : List (String × ℚ)) :
    (∀ m, resolve cat slots sr = Except.error m ↔
      (applyConstraints slots (buildCandidates cat sr) = [] ∧
        m = errMsg slots)) ∧
    (applyConstraints slots (buildCandidates cat sr) ≠ [] →
      ∃ r, resolve cat slots sr = Except.ok r) := by
  by_cases he : applyConstraints slots (buildCandidates cat sr) = []
  · have hres : resolve cat slots sr = .error (errMsg slots) := by
      unfold resolve
      rw [he]
      rfl
    refine ⟨?_, fun hne => absurd he hne⟩
    intro m
    rw [hres]
    constructor
    · intro hm
      injection hm with hm
      exact ⟨he, hm.symm⟩
    · intro h2
      rw [h2.2]
  · have hne2 :
        ¬((applyConstraints slots (buildCandidates cat sr)).isEmpty = true) :=
      fun hem => he (List.isEmpty_iff.mp hem)
    cases hs : scoreCandidates slots
        (applyConstraints slots (buildCandidates cat sr)) with
    | nil => exact absurd ((scoreCandidates_eq_nil_iff _ _).mp hs) he
    | cons best rest =>
      have hres : resolve cat slots sr =
          .ok { id := best.id, name := best.name, unit := best.unit
              , margin := max 0 (scoreKey best - secondScore rest)
              , notes := "query=\x27" ++ build_query_terms slots ++
                  "\x27, semantic=" ++ fmt3 best.semantic } := by
        unfold resolve
        rw [if_neg hne2, hs]
        rfl
      refine ⟨?_, fun _ => ⟨_, hres⟩⟩
      intro m
      rw [hres]
      constructor
      · intro hm
        exact absurd hm (by simp)
      · rintro ⟨h1, -⟩
        exact absurd h1 he

/-- Claim C4, witness: the theorem at a concrete example where the ppp
request filters everything out, giving the error with the synthesized
query, and at a concrete example with a survivor, giving a result. -/
theorem claim_C4_witness :
    resolve catGdp slotsPpp srGdp = Except.error (errMsg slotsPpp) ∧
    ∃ r, resolve catPop slotsPop srPop = Except.ok r := by
  constructor
  · exact ((claim_C4_error_iff catGdp slotsPpp srGdp).1
      (errMsg slotsPpp)).mpr ⟨rfl, rfl⟩
  · exact (claim_C4_error_iff catPop slotsPop srPop).2 (by decide)

/-- Claim C5: the unit qualifiers produced by the slot normalizer never
contain the growth-rate qualifier together with a currency-basis
qualifier, because the currency branch is gated on the absence of growth
wording. -/
theorem claim_C5_growth_exclusive (res : RawExtraction) (question : String)
    (h : "growth_rate" ∈ (parse_with_dspy res question).unit_qualifiers) :
    "constant_usd" ∉ (parse_with_dspy res question).unit_qualifiers ∧
    "current_usd" ∉ (parse_with_dspy res question).unit_qualifiers := by
  have e : (parse_with_dspy res question).unit_qualifiers =
      uqFinal (conceptNorm res (strLower question)) (strLower question)
        (demoNorm res) (uqBase (unitNorm res) (strLower question)) := rfl
  rw [e] at h ⊢
  rw [mem_uqFinal "growth_rate" _ _ _ _ (by decide)] at h
  have hg := uqBase_growth_mem (unitNorm res) (strLower question) h
  have hcc := uqBase_no_currency (unitNorm res) (strLower question) hg
  rw [mem_uqFinal "constant_usd" _ _ _ _ (by decide),
    mem_uqFinal "current_usd" _ _ _ _ (by decide)]
  exact hcc

/-- Claim C5, witness: the population growth question produces the
growth-rate qualifier and, by the theorem, neither currency qualifier. -/
theorem claim_C5_witness :
    "growth_rate" ∈ (parse_with_dspy rawGrowth qGrowth).unit_qualifiers ∧
    "constant_usd" ∉ (parse_with_dspy rawGrowth qGrowth).unit_qualifiers ∧
    "current_usd" ∉ (parse_with_dspy rawGrowth qGrowth).unit_qualifiers := by
  have h := claim_C5_growth_exclusive rawGrowth qGrowth (by decide)
  exact ⟨by decide, h.1, h.2⟩

/-- Claim C6: every candidate emitted by the scorer carries exactly the
weighted sum of the semantic score and the three sub-scores with the fixed
weights; the written-out zero term of the source contributes nothing. -/
theorem claim_C6_score_formula (slots : Slots) (cs : List Cand) (c : Cand)
    (h : c ∈ scoreCandidates slots cs) :
    c.score = some (0.45 * c.semantic + 0.25 * unit_match slots c +
      0.15 * demo_match slots c + 0.10 * prior slots c) := by
  unfold scoreCandidates at h
  rw [mem_sortDesc] at h
  rcases List.mem_map.mp h with ⟨c0, -, rfl⟩
  show some (0.45 * c0.semantic + 0.25 * unit_match slots c0 +
      0.15 * demo_match slots c0 + 0.10 * prior slots c0 + 0.05 * 0) =
    some (0.45 * c0.semantic + 0.25 * unit_match slots c0 +
      0.15 * demo_match slots c0 + 0.10 * prior slots c0)
  norm_num

/-- Claim C6, witness: the theorem at the scored population candidate of
the concrete example. -/
theorem claim_C6_witness :
    (scoreOne slotsPop candPop).score =
      some (0.45 * (scoreOne slotsPop candPop).semantic +
        0.25 * unit_match slotsPop (scoreOne slotsPop candPop) +
        0.15 * demo_match slotsPop (scoreOne slotsPop candPop) +
        0.10 * prior slotsPop (scoreOne slotsPop candPop)) :=
  claim_C6_score_formula slotsPop [candPop] (scoreOne slotsPop candPop)
    (List.mem_singleton.mpr rfl)

/-- Claim C7: the constraint filter returns an order-preserving subsequence
of its input and keeps a candidate exactly when the stated rejection
condition fails; the per-capita, currency and count qualifiers do not occur
in the condition, so they never cause rejection. -/
theorem claim_C7_filter (slots : Slots) (cs : List Cand) :
    (applyConstraints slots cs).Sublist cs ∧
    applyConstraints slots cs = cs.filter (fun c => !(rejectSpec slots c)) := by
  refine ⟨List.filter_sublist cs, ?_⟩
  unfold applyConstraints
  exact List.filter_congr (fun c _ => keepCand_eq_not_reject slots c)

/-- Claim C8: when the normalized concept contains none of the three
demographic markers, the sex slot stays total, whatever the question and
demographics text say. -/
theorem claim_C8_nondemographic_total (res : RawExtraction) (question : String)
    (h1 : strContains (parse_with_dspy res question).concept "population"
      = false)
    (h2 : strContains (parse_with_dspy res question).concept "unemployment"
      = false)
    (h3 : strContains (parse_with_dspy res question).concept "life_expectancy"
      = false) :
    (parse_with_dspy res question).sex = "total" := by
  have hc : (parse_with_dspy res question).concept =
      conceptNorm res (strLower question) := rfl
  rw [hc] at h1 h2 h3
  have hd : isDemoConcept (conceptNorm res (strLower question)) = false := by
    unfold isDemoConcept
    rw [h1, h2, h3]
    rfl
  show (sexResolve (conceptNorm res (strLower question)) (strLower question)
      (demoNorm res) (uqBase (unitNorm res) (strLower question))).1 = "total"
  unfold sexResolve
  rw [hd]
  rfl

/-- Claim C8, witness: a GDP question with gender text in the demographics
field still gets total sex. -/
theorem claim_C8_witness : (parse_with_dspy rawGdpQ qGdp).sex = "total" :=
  claim_C8_nondemographic_total rawGdpQ qGdp (by decide) (by decide) (by decide)

/-- Claim C9: resolve is a pure function of the slots, the retrieval
results and the read-only catalog mapping; the candidate records are
rebuilt from the inputs on every call, so calling it twice with identical
inputs yields identical results. -/
theorem claim_C9_deterministic (cat : String → Option Row) (slots : Slots)
    (sr : List (String × ℚ)) :
    resolve cat slots sr = resolve cat slots sr := rfl

/-- Claim C10: scoring mutates a candidate only to attach the derived
score: erasing the score from the scorer output gives a permutation of the
input with the score erased, and attaching a score changes no other
field. -/
theorem claim_C10_frame (slots : Slots) (cs : List Cand) :
    ((scoreCandidates slots cs).map stripScore).Perm (cs.map stripScore) ∧
    ∀ c : Cand, stripScore (scoreOne slots c) = stripScore c := by
  refine ⟨?_, fun c => rfl⟩
  have h2 := (sortDesc_perm scoreKey (cs.map (scoreOne slots))).map stripScore
  rw [List.map_map] at h2
  have h3 : stripScore ∘ scoreOne slots = stripScore := funext fun c => rfl
  rw [h3] at h2
  exact h2
